import Mathlib

/-!
Verification of the image-description-bot repository: a shallow embedding of
the relay endpoint (src/app/api/generate_insights/route.ts) and of the client
component (src/components/image-insights.tsx), with theorems settling the
behavioural claims about them.

JavaScript numbers are modelled as rationals where real division matters,
byte buffers as lists of naturals, and nullable values as Option. Thrown
exceptions on the relay side are modelled explicitly: the code in route.ts
wraps only the external-model invocation in try/catch, so a failure while
parsing the multipart body or while reading the image bytes escapes the
handler uncaught, and the embedding records that as a distinct outcome.
-/

namespace ImageDescriptionBot

/-! ## Relay endpoint: src/app/api/generate_insights/route.ts -/

/-- Raw image bytes, as produced by reading the uploaded file into memory. -/
abbrev ImageFile := List Nat

/-- The fields of the incoming multipart form body as the handler reads them.
A part that is missing, or whose image part is not a file (so that reading
its bytes throws), is modelled as none. The body may also carry a question
part; the handler never reads it. -/
structure FormData where
  image : Option ImageFile
  language : Option String
  length : Option String
  question : Option String
deriving Repr, DecidableEq

/-- JavaScript template-literal interpolation of a possibly-null string:
interpolating null produces the text "null". -/
def jsString : Option String → String
  | some s => s
  | none => "null"

/-- The static system prompt from route.ts line 17. -/
def systemPrompt : String :=
  "You are an expert image insights generator. Your task is to generate concise and impactful insights about an image. It is very important for my career that you follow the instructions exactly."

/-- The interpolated user prompt from route.ts line 19. -/
def userPrompt (language len : Option String) : String :=
  "Generate interesting insights about the provided image in " ++ jsString language ++
    " language. Make sure the insights are " ++ jsString len ++ " and clear. "

/-- One chat message of the prompt array. -/
structure Message where
  role : String
  content : String
deriving Repr, DecidableEq

/-- The gateway options passed as the third argument of the model call. -/
structure GatewayConfig where
  id : String
  skipCache : Bool
  cacheTtl : Nat
deriving Repr, DecidableEq

/-- The full argument record of the external model invocation at
route.ts lines 27-41. -/
structure AIRequest where
  model : String
  messages : List Message
  image : ImageFile
  temperature : ℚ
  max_tokens : Nat
  gateway : GatewayConfig
deriving Repr, DecidableEq

/-- The model invocation the handler performs for a given parsed body and
image bytes, with every fixed decoding parameter from route.ts. -/
def buildRequest (gatewayId : String) (fd : FormData) (imageBytes : ImageFile) : AIRequest :=
  { model := "@cf/meta/llama-3.2-11b-vision-instruct"
    messages := [⟨"system", systemPrompt⟩, ⟨"user", userPrompt fd.language fd.length⟩]
    image := imageBytes
    temperature := 0
    max_tokens := 512
    gateway := ⟨gatewayId, false, 3600000⟩ }

/-- Outcome of one handler execution: a JSON success response, a JSON error
response, or an exception that escapes the handler uncaught. -/
inductive RouteResult where
  | ok (status : Nat) (insights : String)
  | jsonError (status : Nat) (error : String)
  | uncaught
deriving Repr, DecidableEq

/-- Outcome of awaiting request.formData(): either a parsed body or a thrown
parse error (malformed multipart input). -/
inductive ParseOutcome where
  | ok (fd : FormData)
  | fail
deriving Repr, DecidableEq

/-- The POST handler of route.ts. The formData() await (line 10) and the
image read (line 15) happen before the try block, so their failures escape
uncaught; only the model invocation is inside try/catch, the catch returning
a status-500 JSON error body, and success returning status-200 JSON with the
model text passed through unchanged. -/
def POST (gatewayId : String) (parse : ParseOutcome)
    (run : AIRequest → Except String String) : RouteResult :=
  match parse with
  | .fail => .uncaught
  | .ok fd =>
    match fd.image with
    | none => .uncaught
    | some bytes =>
      match run (buildRequest gatewayId fd bytes) with
      | .ok text => .ok 200 text
      | .error _ => .jsonError 500 "Failed to generate insights"

/-! ## Client component: src/components/image-insights.tsx -/

/-- The React state of the ImageInsights component (lines 33-40). -/
structure ClientState where
  step : Nat
  image : Option ImageFile
  previewUrl : Option String
  language : String
  length : String
  result : Option String
  loading : Bool
  error : Option String
deriving Repr, DecidableEq

/-- The initial state from the useState initialisers: step 1, no image, no
preview, language "english", length "short", no result, not loading,
no error. -/
def initialState : ClientState :=
  { step := 1, image := none, previewUrl := none, language := "english",
    length := "short", result := none, loading := false, error := none }

/-- The synchronous part of handleImageUpload (lines 44-52): when a file was
picked, store it, advance the step to 2 and clear the error; the preview is
produced later by an asynchronous reader callback. With no file the handler
does nothing. -/
def handleImageUpload (s : ClientState) (file : Option ImageFile) : ClientState :=
  match file with
  | some f => { s with image := some f, step := 2, error := none }
  | none => s

/-- handleRemoveImage (lines 93-98): clears the image, the preview and the
result and resets the step to 1. It does not touch the error message. -/
def handleRemoveImage (s : ClientState) : ClientState :=
  { s with image := none, previewUrl := none, step := 1, result := none }

/-- Output of the preview-fit computation. -/
structure Dimensions where
  width : ℚ
  height : ℚ
deriving Repr, DecidableEq

/-- calculateImageDimensions (lines 77-91): aspect-ratio-preserving fit of
the image into the container. -/
def calculateImageDimensions (containerWidth containerHeight imgWidth imgHeight : ℚ) :
    Dimensions :=
  let imgRatio := imgWidth / imgHeight
  let containerRatio := containerWidth / containerHeight
  if imgRatio > containerRatio then
    { width := containerWidth, height := containerWidth / imgRatio }
  else
    { width := containerHeight * imgRatio, height := containerHeight }

/-- The resolution of the fetch to /api/generate_insights as handleAnalyze
observes it: either an exception (network failure or a JSON body that fails
to parse), or a response with its ok flag and the optional insights field of
the parsed body. -/
inductive FetchOutcome where
  | throw
  | response (ok : Bool) (insights : Option String)
deriving Repr, DecidableEq

/-- The multipart request handleAnalyze builds (lines 130-133): the image
plus the language and length state values. -/
structure AnalyzeRequest where
  image : ImageFile
  language : String
  length : String
deriving Repr, DecidableEq

/-- The validation message set when Submit runs with no image (line 118). -/
def noImageMsg : String := "Please upload an image first."

/-- The generic error message stored on any failure path (line 160). -/
def genericErrorMsg : String := "An error occurred while analyzing the image. Please try again."

/-- JavaScript truthiness of an optional string: truthy exactly when present
and non-empty, as in the checks on data.insights (line 145) and on result
(line 354). -/
def stringTruthy : Option String → Bool
  | some s => decide (s ≠ "")
  | none => false

/-- One run of handleAnalyze: the sequence of component states it passes
through (ending in the state after the finally block) and the request it
sent, if any. -/
structure AnalyzeRun where
  trace : List ClientState
  request : Option AnalyzeRequest
deriving Repr, DecidableEq

/-- handleAnalyze (lines 116-171). With no image it sets the validation
message and returns without any network call. Otherwise it sets loading and
clears the error, posts the multipart request, and resolves: a thrown fetch,
a non-ok status or a falsy insights field all land in the catch block which
stores the generic error; an ok status with a truthy insights field stores
the text and advances the step to 4. The finally block clears loading on
every path. -/
def handleAnalyze (s : ClientState) (outcome : FetchOutcome) : AnalyzeRun :=
  match s.image with
  | none =>
    { trace := [{ s with error := some noImageMsg }], request := none }
  | some img =>
    let sLoading : ClientState := { s with loading := true, error := none }
    let req : AnalyzeRequest := { image := img, language := s.language, length := s.length }
    let sResolved : ClientState :=
      match outcome with
      | .response true ins =>
        if stringTruthy ins then
          { sLoading with result := ins, step := 4 }
        else
          { sLoading with error := some genericErrorMsg }
      | _ => { sLoading with error := some genericErrorMsg }
    { trace := [sLoading, sResolved, { sResolved with loading := false }],
      request := some req }

/-- The component state once handleAnalyze has fully resolved. -/
def analyzeFinal (s : ClientState) (o : FetchOutcome) : ClientState :=
  ((handleAnalyze s o).trace).getLastD s

/-- The disabled condition of the Analyze button (line 299). -/
def analyzeDisabled (s : ClientState) : Bool :=
  s.image.isNone || s.loading

/-- What the result pane renders (lines 344-372): a skeleton while loading,
otherwise the markdown renderer when the result string is truthy, otherwise
the placeholder text. -/
inductive RenderView where
  | skeleton
  | markdown (text : String)
  | placeholder
deriving Repr, DecidableEq

/-- The render decision of the result pane, as a function of the loading
flag and the result state. -/
def renderResult (loading : Bool) (result : Option String) : RenderView :=
  if loading then .skeleton
  else
    match result with
    | some t => if t ≠ "" then .markdown t else .placeholder
    | none => .placeholder

/-! ## Concrete fixtures used by witnesses and counterexamples -/

/-- A well-formed structured-variant body. -/
def fdSample : FormData :=
  { image := some [1, 2, 3], language := some "english", length := some "short",
    question := none }

/-- A body whose image part is missing (or not a file). -/
def fdNoImage : FormData :=
  { image := none, language := some "english", length := some "short", question := none }

/-- A question-variant body: an image and a question part, no language or
length parts. -/
def fdQuestion : FormData :=
  { image := some [7], language := none, length := none, question := some "What is in this image?" }

/-- An external model that always succeeds. -/
def alwaysOk : AIRequest → Except String String := fun _ => .ok "model text"

/-- An external model invocation that always throws. -/
def alwaysFail : AIRequest → Except String String := fun _ => .error "model failure"

/-- A client state with an image uploaded onto the initial state. -/
def uploadedState : ClientState := handleImageUpload initialState (some [1, 2, 3])

/-- A client state holding an image, a preview, a stale result and a stale
error message, as after a failed analysis. -/
def staleState : ClientState :=
  { initialState with
    image := some [1],
    previewUrl := some "data-url",
    result := some "old insights",
    step := 4,
    error := some genericErrorMsg }

/-! ## Theorems -/

/-- Claim C1, counterexample: the claim states that a failure during
multipart parsing or image handling still yields the 500 JSON error
response. In the code both happen before the try block: a multipart parse
failure, and a body whose image part is missing, each make the handler
escape with an uncaught exception, which is not the 500 JSON error
response. -/
theorem C1_counterexample :
    POST "gw" (.ok fdNoImage) alwaysOk = RouteResult.uncaught
    ∧ POST "gw" .fail alwaysOk = RouteResult.uncaught
    ∧ RouteResult.uncaught ≠ RouteResult.jsonError 500 "Failed to generate insights" := by
  refine ⟨rfl, rfl, ?_⟩
  decide

/-- Claim C1, amended: once the multipart body has parsed and the image part
is a file, an external-model error yields the 500 JSON error body and
success yields 200 with the model text as insights; but a failure during
multipart parsing, or a missing or non-file image part, escapes the handler
as an uncaught exception instead of the 500 JSON response. -/
theorem C1_relay_error_handling (gw : String) (fd : FormData) (img : ImageFile)
    (run : AIRequest → Except String String) (h : fd.image = some img) :
    ((∃ e, run (buildRequest gw fd img) = .error e) →
      POST gw (.ok fd) run = .jsonError 500 "Failed to generate insights")
    ∧ (∀ t, run (buildRequest gw fd img) = .ok t → POST gw (.ok fd) run = .ok 200 t)
    ∧ POST gw .fail run = .uncaught
    ∧ (∀ fd2 : FormData, fd2.image = none → POST gw (.ok fd2) run = .uncaught) := by
  refine ⟨?_, ?_, rfl, ?_⟩
  · rintro ⟨e, he⟩
    simp [POST, h, he]
  · intro t ht
    simp [POST, h, ht]
  · intro fd2 h2
    simp [POST, h2]

/-- Claim C1 witness: at a concrete well-formed body and an always-throwing
model, the handler returns the 500 JSON error body. -/
theorem C1_relay_error_handling_witness :
    POST "gw" (.ok fdSample) alwaysFail = .jsonError 500 "Failed to generate insights" :=
  (C1_relay_error_handling "gw" fdSample [1, 2, 3] alwaysFail rfl).1 ⟨"model failure", rfl⟩

/-- Claim C2, counterexample: the claim states that the input with braces
selects a structured-data view and a plain sentence selects a plain-text
view. The code has no such classifier: when not loading, any truthy result
is handed to the markdown renderer, so both inputs select the same (and
only) markdown view. -/
theorem C2_counterexample :
    renderResult false (some "\x7b\"a\":1\x7d") = RenderView.markdown "\x7b\"a\":1\x7d"
    ∧ renderResult false (some "plain sentence") = RenderView.markdown "plain sentence" :=
  ⟨rfl, rfl⟩

/-- Claim C2, amended: the result pane performs no content classification:
while loading it shows a skeleton; otherwise any non-empty result text is
rendered through the markdown renderer with the text unchanged, and an
empty or absent result shows the placeholder. -/
theorem C2_render_result (result : Option String) :
    renderResult true result = .skeleton
    ∧ (∀ t : String, t ≠ "" → renderResult false (some t) = .markdown t)
    ∧ renderResult false none = .placeholder
    ∧ renderResult false (some "") = .placeholder := by
  refine ⟨rfl, ?_, rfl, rfl⟩
  intro t ht
  simp [renderResult, ht]

/-- Claim C2 witness: a concrete non-empty result is rendered as markdown. -/
theorem C2_render_result_witness :
    renderResult false (some "plain text result") = .markdown "plain text result" :=
  (C2_render_result none).2.1 "plain text result" (by decide)

/-- Claim C3, counterexample: the claim states Remove Image discards the
error message. At a state carrying an error, handleRemoveImage leaves the
error in place, so the post-removal state differs from the initial state on
the error field. -/
theorem C3_counterexample :
    (handleRemoveImage staleState).error = some genericErrorMsg
    ∧ initialState.error = none
    ∧ some genericErrorMsg ≠ (none : Option String) := by
  refine ⟨rfl, rfl, ?_⟩
  decide

/-- Claim C3, amended: Remove Image discards the image, the preview and the
result and resets the progress step to its initial value 1, leaving
language, length and loading untouched; it does not clear the error
message, which survives removal unchanged. -/
theorem C3_remove_image (s : ClientState) :
    (handleRemoveImage s).image = none
    ∧ (handleRemoveImage s).previewUrl = none
    ∧ (handleRemoveImage s).result = none
    ∧ (handleRemoveImage s).step = 1
    ∧ (handleRemoveImage s).step = initialState.step
    ∧ (handleRemoveImage s).error = s.error
    ∧ (handleRemoveImage s).language = s.language
    ∧ (handleRemoveImage s).length = s.length
    ∧ (handleRemoveImage s).loading = s.loading := by
  refine ⟨rfl, rfl, rfl, rfl, rfl, rfl, rfl, rfl, rfl⟩

/-- Claim C4, counterexample: the claim states a question variant exists in
which the user message is the verbatim question and the token budget is
1024. On a body carrying only an image and a question part, the handler
still sends the interpolated language/length instruction (with null
interpolations), not the question, and the token budget is 512, not 1024. -/
theorem C4_counterexample :
    (buildRequest "gw" fdQuestion [7]).max_tokens = 512
    ∧ (buildRequest "gw" fdQuestion [7]).max_tokens ≠ 1024
    ∧ (buildRequest "gw" fdQuestion [7]).messages.map Message.content
        = [systemPrompt, userPrompt none none]
    ∧ userPrompt none none ≠ "What is in this image?" := by
  refine ⟨rfl, by decide, rfl, by decide⟩

/-- Claim C4, amended: the relay endpoint implements only the structured
variant: it reads the image, language and length parts, ignores any
question part entirely, always sends the interpolated language/length
instruction as the user message, and always uses a maximum output token
budget of 512. -/
theorem C4_single_variant (gw : String) (fd : FormData) (img : ImageFile) (q : Option String) :
    buildRequest gw { fd with question := q } img = buildRequest gw fd img
    ∧ (buildRequest gw fd img).max_tokens = 512
    ∧ (buildRequest gw fd img).messages
        = [⟨"system", systemPrompt⟩, ⟨"user", userPrompt fd.language fd.length⟩] :=
  ⟨rfl, rfl, rfl⟩

/-- Claim C5: for strictly positive container and image dimensions, the
preview-fit computation never exceeds the container on either axis and
preserves the image aspect ratio exactly. -/
theorem C5_preview_dimensions_fit (cw ch iw ih : ℚ)
    (hcw : 0 < cw) (hch : 0 < ch) (hiw : 0 < iw) (hih : 0 < ih) :
    (calculateImageDimensions cw ch iw ih).width ≤ cw
    ∧ (calculateImageDimensions cw ch iw ih).height ≤ ch
    ∧ (calculateImageDimensions cw ch iw ih).width
        / (calculateImageDimensions cw ch iw ih).height = iw / ih := by
  have hcw' : cw ≠ 0 := hcw.ne'
  have hch' : ch ≠ 0 := hch.ne'
  have hiw' : iw ≠ 0 := hiw.ne'
  have hih' : ih ≠ 0 := hih.ne'
  have hratio : 0 < iw / ih := by positivity
  by_cases h : iw / ih > cw / ch
  · have heq : calculateImageDimensions cw ch iw ih
        = { width := cw, height := cw / (iw / ih) } := by
      simp only [calculateImageDimensions, if_pos h]
    rw [heq]
    rw [gt_iff_lt, div_lt_div_iff₀ hch hih] at h
    refine ⟨le_refl _, ?_, ?_⟩
    · show cw / (iw / ih) ≤ ch
      rw [div_le_iff₀ hratio, ← mul_div_assoc, le_div_iff₀ hih]
      nlinarith
    · show cw / (cw / (iw / ih)) = iw / ih
      rw [div_div_eq_mul_div, mul_comm, mul_div_assoc, div_self hcw', mul_one]
  · have heq : calculateImageDimensions cw ch iw ih
        = { width := ch * (iw / ih), height := ch } := by
      simp only [calculateImageDimensions, if_neg h]
    rw [heq]
    rw [gt_iff_lt, not_lt, div_le_div_iff₀ hih hch] at h
    refine ⟨?_, le_refl _, ?_⟩
    · show ch * (iw / ih) ≤ cw
      rw [← mul_div_assoc, div_le_iff₀ hih]
      nlinarith
    · show ch * (iw / ih) / ch = iw / ih
      rw [mul_comm, mul_div_assoc, div_self hch', mul_one]

/-- Claim C5 witness: a concrete wide image in a concrete container. -/
theorem C5_preview_dimensions_fit_witness :
    (calculateImageDimensions 4 3 8 2).width ≤ 4
    ∧ (calculateImageDimensions 4 3 8 2).height ≤ 3
    ∧ (calculateImageDimensions 4 3 8 2).width
        / (calculateImageDimensions 4 3 8 2).height = 8 / 2 :=
  C5_preview_dimensions_fit 4 3 8 2 (by norm_num) (by norm_num) (by norm_num) (by norm_num)

/-- Claim C6: on a valid submission (an image is present), every state the
component passes through before the finally block has the loading flag set,
and the state after the finally block has it cleared, whichever of the
success, failure or exception outcomes occurs. -/
theorem C6_loading_lifecycle (s : ClientState) (o : FetchOutcome)
    (h : s.image.isSome = true) :
    ((handleAnalyze s o).trace.dropLast.all fun st => st.loading) = true
    ∧ ((handleAnalyze s o).trace.getLastD s).loading = false := by
  obtain ⟨img, himg⟩ := Option.isSome_iff_exists.mp h
  cases o with
  | throw =>
    simp [handleAnalyze, himg, List.getLastD]
  | response ok ins =>
    cases ok
    · simp [handleAnalyze, himg, List.getLastD]
    · simp only [handleAnalyze, himg, List.all, List.dropLast, List.getLastD]
      split <;> simp

/-- Claim C6 witness: at the uploaded state and an exception outcome, the
intermediate states carry loading and the final state does not. -/
theorem C6_loading_lifecycle_witness :
    ((handleAnalyze uploadedState .throw).trace.dropLast.all fun st => st.loading) = true
    ∧ ((handleAnalyze uploadedState .throw).trace.getLastD uploadedState).loading = false :=
  C6_loading_lifecycle uploadedState .throw rfl

/-- Claim C7: submitting with no image present fails locally: the
validation message is stored, no request is sent, and loading and result
are left unchanged. -/
theorem C7_no_image_validation (s : ClientState) (o : FetchOutcome)
    (h : s.image = none) :
    (handleAnalyze s o).request = none
    ∧ (analyzeFinal s o).error = some noImageMsg
    ∧ (analyzeFinal s o).loading = s.loading
    ∧ (analyzeFinal s o).result = s.result := by
  refine ⟨?_, ?_, ?_, ?_⟩ <;> simp [handleAnalyze, analyzeFinal, h, List.getLastD]

/-- Claim C7 witness: at the initial state (no image), with any outcome. -/
theorem C7_no_image_validation_witness :
    (handleAnalyze initialState .throw).request = none
    ∧ (analyzeFinal initialState .throw).error = some noImageMsg
    ∧ (analyzeFinal initialState .throw).loading = initialState.loading
    ∧ (analyzeFinal initialState .throw).result = initialState.result :=
  C7_no_image_validation initialState .throw rfl

/-- Claim C8: with an image present, a non-success HTTP status and a
well-formed body missing the insights field resolve to the very same final
state: the generic error message is stored and the result is untouched; the
result text is stored and the step advanced to 4 exactly on a success
status whose insights field is a truthy string. -/
theorem C8_failure_equivalence (s : ClientState) (img : ImageFile)
    (b : Option String) (t : String) (h : s.image = some img) (ht : t ≠ "") :
    analyzeFinal s (.response false b) = analyzeFinal s (.response true none)
    ∧ analyzeFinal s (.response false b) = analyzeFinal s .throw
    ∧ (analyzeFinal s (.response false b)).error = some genericErrorMsg
    ∧ (analyzeFinal s (.response false b)).result = s.result
    ∧ (analyzeFinal s (.response true (some t))).result = some t
    ∧ (analyzeFinal s (.response true (some t))).step = 4
    ∧ (analyzeFinal s (.response true (some t))).error = none := by
  refine ⟨?_, ?_, ?_, ?_, ?_, ?_, ?_⟩ <;>
    simp [handleAnalyze, analyzeFinal, h, List.getLastD, stringTruthy, ht]

/-- Claim C8 witness: at the uploaded state, a status-500 response and a
missing-field body coincide, and a truthy body stores the text. -/
theorem C8_failure_equivalence_witness :
    analyzeFinal uploadedState (.response false (some "ignored"))
      = analyzeFinal uploadedState (.response true none)
    ∧ analyzeFinal uploadedState (.response false (some "ignored"))
      = analyzeFinal uploadedState .throw
    ∧ (analyzeFinal uploadedState (.response false (some "ignored"))).error
      = some genericErrorMsg
    ∧ (analyzeFinal uploadedState (.response false (some "ignored"))).result
      = uploadedState.result
    ∧ (analyzeFinal uploadedState (.response true (some "new insights"))).result
      = some "new insights"
    ∧ (analyzeFinal uploadedState (.response true (some "new insights"))).step = 4
    ∧ (analyzeFinal uploadedState (.response true (some "new insights"))).error = none :=
  C8_failure_equivalence uploadedState [1, 2, 3] (some "ignored") "new insights" rfl
    (by decide)

/-- Claim C9: on the structured variant, the external model is invoked with
temperature 0, a 512-token budget, caching enabled (skipCache false) with
the fixed 3600000 retention value, and on success the text field of the
model response is returned unchanged as insights with status 200. -/
theorem C9_model_invocation (gw : String) (fd : FormData) (img : ImageFile)
    (run : AIRequest → Except String String) (t : String)
    (h : fd.image = some img) (hr : run (buildRequest gw fd img) = .ok t) :
    (buildRequest gw fd img).temperature = 0
    ∧ (buildRequest gw fd img).max_tokens = 512
    ∧ (buildRequest gw fd img).gateway.skipCache = false
    ∧ (buildRequest gw fd img).gateway.cacheTtl = 3600000
    ∧ POST gw (.ok fd) run = .ok 200 t := by
  refine ⟨rfl, rfl, rfl, rfl, ?_⟩
  simp [POST, h, hr]

/-- Claim C9 witness: the sample body with an always-succeeding model. -/
theorem C9_model_invocation_witness :
    (buildRequest "gw" fdSample [1, 2, 3]).temperature = 0
    ∧ (buildRequest "gw" fdSample [1, 2, 3]).max_tokens = 512
    ∧ (buildRequest "gw" fdSample [1, 2, 3]).gateway.skipCache = false
    ∧ (buildRequest "gw" fdSample [1, 2, 3]).gateway.cacheTtl = 3600000
    ∧ POST "gw" (.ok fdSample) alwaysOk = .ok 200 "model text" :=
  C9_model_invocation "gw" fdSample [1, 2, 3] alwaysOk "model text" rfl rfl

/-- Claim C10: the language and length parameters start at their defaults
"english" and "short"; after merely uploading an image onto the initial
state the submit button is enabled, and the outbound request carries
language "english" and length "short" without any parameter interaction. -/
theorem C10_default_parameters (f : ImageFile) (o : FetchOutcome) :
    initialState.language = "english"
    ∧ initialState.length = "short"
    ∧ analyzeDisabled (handleImageUpload initialState (some f)) = false
    ∧ (handleAnalyze (handleImageUpload initialState (some f)) o).request
        = some { image := f, language := "english", length := "short" } := by
  refine ⟨rfl, rfl, rfl, ?_⟩
  simp [handleAnalyze, handleImageUpload, initialState]

end ImageDescriptionBot
